import Mathlib

/-!
Verification of the layout & compositing engine of the Image-Stitching-Tool
repository (src/App.tsx, function `generatePreview`).

The engine is embedded shallowly: JS number arithmetic is modelled by exact
rationals, the JS falsy-default idiom `x || d` on possibly-undefined numeric
fields by `jsOr` over `Option Nat`, and every fabric.js object added to the
canvas by an element of a `DrawOp` list, in the order the code adds them.
The asynchronous control flow of `generatePreview` (early returns, the catch
handler, the deferred readback) is modelled by a pure function from the item
list, canvas availability and an optional injected failure to a result record.
-/

namespace ImageStitching

/-- A decoded raster image as fabric.js exposes it: `width` and `height`
are numeric fields that may be absent (`none`) or zero. -/
structure DecodedImage where
  width : Option Nat
  height : Option Nat
deriving DecidableEq, Repr

/-- The two caption strings of one item (`caption.zh` and `caption.jp`
in the source). -/
structure Caption where
  zh : String
  jp : String
deriving DecidableEq, Repr

/-- One entry of the `images` list paired with its loaded image:
the source zips `images[i]` with `loadedImages[i]` by index. -/
structure ImageItem where
  img : DecodedImage
  caption : Caption
deriving DecidableEq, Repr

/-- JS `x || d` on a possibly-undefined numeric field: `undefined` and `0`
are falsy and replaced by the default. -/
def jsOr (o : Option Nat) (d : Nat) : Nat :=
  match o with
  | none => d
  | some 0 => d
  | some (n + 1) => n + 1

/-- Design constant: every image is rescaled to this canvas width (line 137). -/
def CANVAS_WIDTH : ℚ := 800

/-- `CANVAS_WIDTH / (firstImage.width || 1)` (line 141). -/
def firstImageScale (first : DecodedImage) : ℚ :=
  CANVAS_WIDTH / ((jsOr first.width 1 : Nat) : ℚ)

/-- `(firstImage.height || 600) * firstImageScale` (line 142). -/
def firstImageHeight (first : DecodedImage) : ℚ :=
  ((jsOr first.height 600 : Nat) : ℚ) * firstImageScale first

/-- `Math.min(Math.max(firstImageHeight * 0.15, 80), 120)` (lines 145-148). -/
def CAPTION_HEIGHT (first : DecodedImage) : ℚ :=
  min (max (firstImageHeight first * (15 / 100)) 80) 120

/-- `firstImageHeight + (images.length - 1) * CAPTION_HEIGHT` (lines 151-152). -/
def totalHeight (count : Nat) (first : DecodedImage) : ℚ :=
  firstImageHeight first + ((count : ℚ) - 1) * CAPTION_HEIGHT first

/-- Spec-side definition: `clamp(x, lo, hi)` as the spec words it. -/
def clamp (x lo hi : ℚ) : ℚ := min (max x lo) hi

/-- A `fabric.Rect` used as an absolutely-positioned clip path (lines 202-208). -/
structure ClipRect where
  left : ℚ
  top : ℚ
  width : ℚ
  height : ℚ
  absolutePositioned : Bool
deriving DecidableEq, Repr

/-- A `fabric.Shadow` descriptor. -/
structure Shadow where
  color : String
  blur : ℚ
  offsetX : ℚ
  offsetY : ℚ
deriving DecidableEq, Repr

/-- The geometric fields set on an image object before it is added. -/
structure ImageDraw where
  left : ℚ
  top : ℚ
  scaleX : ℚ
  scaleY : ℚ
  clipPath : Option ClipRect
deriving DecidableEq, Repr

/-- Which of the three text objects a text draw is: the primary caption's
background/glow copy, the primary caption's main white text, or the
secondary (jp) caption. -/
inductive TextLayer where
  | zhBackground
  | zhMain
  | jp
deriving DecidableEq, Repr

/-- The fields set on a `fabric.FabricText` before it is added. -/
structure TextDraw where
  content : String
  layer : TextLayer
  left : ℚ
  top : ℚ
  fontSize : ℚ
  fontFamily : String
  fontWeight : String
  fill : String
  opacity : ℚ
  shadow : Shadow
deriving DecidableEq, Repr

/-- One object added to the fabric canvas, in source order. -/
inductive DrawOp where
  | image (d : ImageDraw)
  | text (t : TextDraw)
deriving DecidableEq, Repr

/-- The primary caption's background/glow text (lines 228-249). -/
def zhBackgroundText (content : String) (top : ℚ) : TextDraw :=
  { content := content
    layer := TextLayer.zhBackground
    left := CANVAS_WIDTH / 2
    top := top
    fontSize := 36
    fontFamily := "Yuanti, Noto Sans TC, sans-serif"
    fontWeight := "bold"
    fill := "#003153"
    opacity := 8 / 10
    shadow := { color := "#003153", blur := 2, offsetX := -1, offsetY := -1 } }

/-- The primary caption's main white text (lines 252-269). -/
def zhMainText (content : String) (top : ℚ) : TextDraw :=
  { content := content
    layer := TextLayer.zhMain
    left := CANVAS_WIDTH / 2
    top := top
    fontSize := 36
    fontFamily := "Yuanti, Noto Sans TC, sans-serif"
    fontWeight := "bold"
    fill := "white"
    opacity := 1
    shadow := { color := "#003153", blur := 2, offsetX := 2, offsetY := 2 } }

/-- The secondary (jp) caption text (lines 274-291). -/
def jpCaptionText (content : String) (top : ℚ) : TextDraw :=
  { content := content
    layer := TextLayer.jp
    left := CANVAS_WIDTH / 2
    top := top
    fontSize := 20
    fontFamily := "Noto Sans JP, sans-serif"
    fontWeight := "normal"
    fill := "white"
    opacity := 1
    shadow := { color := "#000000", blur := 0, offsetX := 1, offsetY := 1 } }

/-- The caption block of one loop iteration (lines 217-293): guarded by JS
truthiness of `caption.zh || caption.jp`; the zh branch adds the glow copy
and then the main text at `sectionTop + sectionHeight - (jp ? 65 : 55)`;
the jp branch adds one text at `sectionTop + sectionHeight - 25`. -/
def captionOps (cap : Caption) (sectionTop sectionHeight : ℚ) : List DrawOp :=
  if cap.zh ≠ "" ∨ cap.jp ≠ "" then
    (if cap.zh ≠ "" then
      [DrawOp.text
          (zhBackgroundText cap.zh
            (sectionTop + sectionHeight - (if cap.jp ≠ "" then 65 else 55))),
        DrawOp.text
          (zhMainText cap.zh
            (sectionTop + sectionHeight - (if cap.jp ≠ "" then 65 else 55)))]
    else []) ++
    (if cap.jp ≠ "" then
      [DrawOp.text (jpCaptionText cap.jp (sectionTop + sectionHeight - 25))]
    else [])
  else []

/-- One horizontal strip of the output canvas and the draw operations the
loop emits for it: `topY` is the value of `currentY` when the iteration
starts, `heightPx` the amount the iteration adds to `currentY`. -/
structure BandRender where
  topY : ℚ
  heightPx : ℚ
  ops : List DrawOp
deriving DecidableEq, Repr

/-- One iteration of the loop at lines 168-294: index 0 draws the image in
full with no clip (lines 172-183); every later index scales the image by
`CANVAS_WIDTH / (img.width || 1)`, bottom-aligns it in its band and clips
it to the band's absolute rectangle (lines 184-213); then the caption block
runs with `sectionTop`/`sectionHeight` recomputed from the already
incremented `currentY` (lines 217-293). Returns the band and the new
`currentY`. -/
def stepBand (first : DecodedImage) (idx : Nat) (currentY : ℚ) (item : ImageItem) :
    BandRender × ℚ :=
  match idx with
  | 0 =>
    let imgOp : DrawOp := DrawOp.image
      { left := 0
        top := currentY
        scaleX := CANVAS_WIDTH / ((jsOr item.img.width 1 : Nat) : ℚ)
        scaleY := firstImageHeight first / ((jsOr item.img.height 1 : Nat) : ℚ)
        clipPath := none }
    let newY := currentY + firstImageHeight first
    let sectionTop := newY - firstImageHeight first
    let sectionHeight := firstImageHeight first
    ({ topY := currentY
       heightPx := firstImageHeight first
       ops := imgOp :: captionOps item.caption sectionTop sectionHeight }, newY)
  | _ + 1 =>
    let imgScale := CANVAS_WIDTH / ((jsOr item.img.width 1 : Nat) : ℚ)
    let fullScaledHeight := ((jsOr item.img.height 600 : Nat) : ℚ) * imgScale
    let imgTop := currentY + CAPTION_HEIGHT first - fullScaledHeight
    let clipRect : ClipRect :=
      { left := 0
        top := currentY
        width := CANVAS_WIDTH
        height := CAPTION_HEIGHT first
        absolutePositioned := true }
    let imgOp : DrawOp := DrawOp.image
      { left := 0
        top := imgTop
        scaleX := imgScale
        scaleY := imgScale
        clipPath := some clipRect }
    let newY := currentY + CAPTION_HEIGHT first
    let sectionTop := newY - CAPTION_HEIGHT first
    let sectionHeight := CAPTION_HEIGHT first
    ({ topY := currentY
       heightPx := CAPTION_HEIGHT first
       ops := imgOp :: captionOps item.caption sectionTop sectionHeight }, newY)

/-- The whole loop of lines 166-294, carrying the index and `currentY`. -/
def renderLoop (first : DecodedImage) : Nat → ℚ → List ImageItem → List BandRender
  | _, _, [] => []
  | idx, currentY, item :: rest =>
    let step := stepBand first idx currentY item
    step.1 :: renderLoop first (idx + 1) step.2 rest

/-- The fully-resolved layout: canvas dimensions plus the per-band draws. -/
structure LayoutPlan where
  canvasWidth : ℚ
  canvasHeight : ℚ
  bands : List BandRender
deriving DecidableEq, Repr

/-- The pure planning part of `generatePreview`: `none` on an empty list
(the early return of line 121), otherwise the canvas dimensions of lines
137-162 and the bands of the loop started with `currentY = 0` (line 166). -/
def makePlan (items : List ImageItem) : Option LayoutPlan :=
  match items with
  | [] => none
  | it :: _ =>
    some
      { canvasWidth := CANVAS_WIDTH
        canvasHeight := totalHeight items.length it.img
        bands := renderLoop it.img 0 0 items }

/-- A point at which the asynchronous work of `generatePreview` can fail:
either one of the `loadFabricImage` promises rejects (so `Promise.all` at
line 132 rejects, before any canvas is constructed), or an await inside the
band loop rejects (e.g. `img.clone()` at line 186, after the canvas was
constructed and stored in `fabricCanvasRef`). -/
inductive FailurePoint where
  | loadFailure (msg : String)
  | drawFailure (msg : String)
deriving DecidableEq, Repr

/-- A typed error that could be surfaced to the caller of the engine. -/
inductive SurfacedError where
  | emptyInput
  | renderError (cause : String)
deriving DecidableEq, Repr

/-- The steps the code performs after the band loop on the success path
(lines 296-306): a drawing step, the synchronous `renderAll`, a timer
delay in milliseconds, and the `toDataURL` readback. -/
inductive FinalStep where
  | draw
  | renderAll
  | timeout (ms : ℚ)
  | toDataURL
deriving DecidableEq, Repr

/-- The externally observable outcome of one `generatePreview` call. -/
structure GPResult where
  /-- A typed error surfaced to the caller; the source is a `void` event
  handler that rethrows nothing, so the model records what (if anything)
  escapes the function as an error value. -/
  reportedError : Option SurfacedError
  /-- The message passed to `console.error` in the catch block (line 308). -/
  consoleError : Option String
  /-- The preview data URL handed to `setPreviewUrl` (line 304), identified
  with the plan it renders; `none` when no output is surfaced. -/
  previewUrl : Option LayoutPlan
  /-- Whether a new `fabric.Canvas` was constructed during this call. -/
  surfaceCreated : Bool
  /-- Whether the failure path (the catch block) disposed that canvas. -/
  surfaceDisposedInFailurePath : Bool
  /-- The post-loop steps performed, in order, on the success path. -/
  finalSteps : List FinalStep
deriving DecidableEq, Repr

/-- The result of the early returns at lines 121 and 124-125 and of a
failure before canvas construction: nothing surfaced, nothing created. -/
def emptyGPResult : GPResult :=
  { reportedError := none
    consoleError := none
    previewUrl := none
    surfaceCreated := false
    surfaceDisposedInFailurePath := false
    finalSteps := [] }

/-- The control flow of `generatePreview` (lines 120-311): an empty item
list returns immediately (line 121) before any canvas work, as does a
missing canvas element (lines 124-125); a rejected load reaches the catch
block (lines 307-310), which only logs and clears the busy flag; a failure
inside the band loop does the same but leaves the already-constructed
canvas undisposed; on success the plan is drawn, `renderAll` runs, and the
readback is deferred by a 100 ms `setTimeout` (lines 296-306). -/
def generatePreview (items : List ImageItem) (canvasAvailable : Bool)
    (failure : Option FailurePoint) : GPResult :=
  if items.length = 0 then emptyGPResult
  else if !canvasAvailable then emptyGPResult
  else
    match failure with
    | some (FailurePoint.loadFailure msg) =>
      { emptyGPResult with consoleError := some msg }
    | some (FailurePoint.drawFailure msg) =>
      { reportedError := none
        consoleError := some msg
        previewUrl := none
        surfaceCreated := true
        surfaceDisposedInFailurePath := false
        finalSteps := [] }
    | none =>
      { reportedError := none
        consoleError := none
        previewUrl := makePlan items
        surfaceCreated := true
        surfaceDisposedInFailurePath := false
        finalSteps := [FinalStep.renderAll, FinalStep.timeout 100, FinalStep.toDataURL] }

/-- The clip path an operation applies: text objects carry none. -/
def opClip : DrawOp → Option ClipRect
  | DrawOp.image d => d.clipPath
  | DrawOp.text _ => none

/-- Number of text draw operations in a list. -/
def countTextOps : List DrawOp → Nat
  | [] => 0
  | DrawOp.text _ :: rest => 1 + countTextOps rest
  | DrawOp.image _ :: rest => countTextOps rest

/-- Number of text draw operations of a given layer in a list. -/
def countLayer : List DrawOp → TextLayer → Nat
  | [], _ => 0
  | DrawOp.text t :: rest, l => (if t.layer = l then 1 else 0) + countLayer rest l
  | DrawOp.image _ :: rest, l => countLayer rest l

/-! ### Helper lemmas about the loop -/

lemma stepBand_topY (first : DecodedImage) (idx : Nat) (y : ℚ) (item : ImageItem) :
    (stepBand first idx y item).1.topY = y := by
  cases idx <;> simp [stepBand]

lemma stepBand_heightPx (first : DecodedImage) (idx : Nat) (y : ℚ) (item : ImageItem) :
    (stepBand first idx y item).1.heightPx =
      if idx = 0 then firstImageHeight first else CAPTION_HEIGHT first := by
  cases idx <;> simp [stepBand]

lemma stepBand_snd (first : DecodedImage) (idx : Nat) (y : ℚ) (item : ImageItem) :
    (stepBand first idx y item).2 = y + (stepBand first idx y item).1.heightPx := by
  cases idx <;> simp [stepBand]

lemma renderLoop_length (items : List ImageItem) (first : DecodedImage) (k : Nat) (y : ℚ) :
    (renderLoop first k y items).length = items.length := by
  induction items generalizing k y with
  | nil => simp [renderLoop]
  | cons item rest ih => simp [renderLoop, ih]

/-- Every band the loop emits is the band of one loop iteration, run at the
band's own `topY` as the current `currentY`, at loop index `k + i`, on the
item at position `i`. -/
lemma renderLoop_get (items : List ImageItem) (first : DecodedImage) (k : Nat) (y : ℚ)
    (i : Nat) (b : BandRender) (hb : (renderLoop first k y items)[i]? = some b) :
    ∃ item, items[i]? = some item ∧ b = (stepBand first (k + i) b.topY item).1 := by
  induction items generalizing k y i with
  | nil => simp [renderLoop] at hb
  | cons item rest ih =>
    cases i with
    | zero =>
      simp only [renderLoop, List.getElem?_cons_zero, Option.some.injEq] at hb
      refine ⟨item, by simp, ?_⟩
      rw [← hb, stepBand_topY, Nat.add_zero]
    | succ j =>
      simp only [renderLoop, List.getElem?_cons_succ] at hb
      obtain ⟨item', hg, hstep⟩ := ih _ _ _ hb
      exact ⟨item', by simpa using hg, by simpa [Nat.add_comm, Nat.add_left_comm] using hstep⟩

lemma renderLoop_head_topY (items : List ImageItem) (first : DecodedImage) (k : Nat)
    (y : ℚ) (b : BandRender) (hb : (renderLoop first k y items)[0]? = some b) :
    b.topY = y := by
  cases items with
  | nil => simp [renderLoop] at hb
  | cons item rest =>
    simp [renderLoop] at hb
    rw [← hb, stepBand_topY]

/-- Consecutive bands tile: the next band's top is the previous band's top
plus its height. -/
lemma renderLoop_tile (items : List ImageItem) (first : DecodedImage) (k : Nat) (y : ℚ)
    (i : Nat) (a b : BandRender) (ha : (renderLoop first k y items)[i]? = some a)
    (hb : (renderLoop first k y items)[i + 1]? = some b) :
    b.topY = a.topY + a.heightPx := by
  induction items generalizing k y i with
  | nil => simp [renderLoop] at ha
  | cons item rest ih =>
    cases i with
    | zero =>
      simp only [renderLoop, List.getElem?_cons_zero, Option.some.injEq] at ha
      simp only [renderLoop, List.getElem?_cons_succ] at hb
      have hby := renderLoop_head_topY rest first (k + 1) _ b hb
      rw [hby, stepBand_snd, ← ha, stepBand_topY]
    | succ j =>
      simp only [renderLoop, List.getElem?_cons_succ] at ha hb
      exact ih _ _ _ ha hb

/-- The height of the band at position `i` is the first-image height at
loop index 0 and the caption band height everywhere else. -/
lemma renderLoop_height (items : List ImageItem) (first : DecodedImage) (k : Nat) (y : ℚ)
    (i : Nat) (b : BandRender) (hb : (renderLoop first k y items)[i]? = some b) :
    b.heightPx = if k + i = 0 then firstImageHeight first else CAPTION_HEIGHT first := by
  obtain ⟨item, _, hstep⟩ := renderLoop_get items first k y i b hb
  rw [hstep, stepBand_heightPx]

lemma renderLoop_sum_of_pos (items : List ImageItem) (first : DecodedImage) (k : Nat)
    (y : ℚ) (hk : k ≠ 0) :
    ((renderLoop first k y items).map BandRender.heightPx).sum =
      (items.length : ℚ) * CAPTION_HEIGHT first := by
  induction items generalizing k y with
  | nil => simp [renderLoop]
  | cons item rest ih =>
    have hstep := stepBand_heightPx first k y item
    rw [if_neg hk] at hstep
    simp only [renderLoop, List.map_cons, List.sum_cons, hstep,
      ih (k + 1) _ (Nat.succ_ne_zero k), List.length_cons]
    push_cast
    ring

/-- The sum of the band heights of the real loop (started at index 0) over
a non-empty list. -/
lemma renderLoop_sum (it : ImageItem) (rest : List ImageItem) (first : DecodedImage) :
    ((renderLoop first 0 0 (it :: rest)).map BandRender.heightPx).sum =
      firstImageHeight first + (rest.length : ℚ) * CAPTION_HEIGHT first := by
  have hstep := stepBand_heightPx first 0 0 it
  rw [if_pos rfl] at hstep
  simp only [renderLoop, List.map_cons, List.sum_cons, hstep,
    renderLoop_sum_of_pos rest first 1 _ one_ne_zero]

/-- Every operation the caption block emits is one of the three text
objects, at the positions the code computes. -/
lemma captionOps_mem (cap : Caption) (st sh : ℚ) (t : TextDraw)
    (hm : DrawOp.text t ∈ captionOps cap st sh) :
    (cap.zh ≠ "" ∧
      (t = zhBackgroundText cap.zh (st + sh - (if cap.jp ≠ "" then 65 else 55)) ∨
       t = zhMainText cap.zh (st + sh - (if cap.jp ≠ "" then 65 else 55)))) ∨
    (cap.jp ≠ "" ∧ t = jpCaptionText cap.jp (st + sh - 25)) := by
  by_cases hzh : cap.zh = "" <;> by_cases hjp : cap.jp = "" <;>
    [skip; skip; skip; skip] <;> simp only [hzh, hjp, ne_eq, not_true_eq_false,
      not_false_eq_true, if_true, if_false, ite_true, ite_false] <;>
    simp [captionOps, hzh, hjp] at hm <;> tauto

/-- The caption block emits only text objects. -/
lemma captionOps_text (cap : Caption) (st sh : ℚ) (op : DrawOp)
    (hm : op ∈ captionOps cap st sh) : ∃ t, op = DrawOp.text t := by
  by_cases hzh : cap.zh = "" <;> by_cases hjp : cap.jp = "" <;>
    simp [captionOps, hzh, hjp] at hm <;> tauto

lemma jsOr_of_pos (n d : Nat) (hn : 0 < n) : jsOr (some n) d = n := by
  cases n with
  | zero => exact absurd hn (lt_irrefl 0)
  | succ m => rfl

/-- With positive pixel dimensions the defaults of `||` vanish and the
rescaled full height of the first image is `heightPx * (800 / widthPx)`. -/
lemma firstImageHeight_eq (first : DecodedImage) (w h : Nat)
    (hw : first.width = some w) (hw0 : 0 < w) (hh : first.height = some h) (hh0 : 0 < h) :
    firstImageHeight first = (h : ℚ) * (CANVAS_WIDTH / (w : ℚ)) := by
  unfold firstImageHeight firstImageScale
  rw [hw, hh, jsOr_of_pos w 1 hw0, jsOr_of_pos h 600 hh0]

lemma makePlan_eq (items : List ImageItem) (it : ImageItem) (rest : List ImageItem)
    (hitems : items = it :: rest) (plan : LayoutPlan) (hplan : makePlan items = some plan) :
    plan.canvasWidth = CANVAS_WIDTH ∧
    plan.canvasHeight = totalHeight items.length it.img ∧
    plan.bands = renderLoop it.img 0 0 items := by
  subst hitems
  simp only [makePlan, Option.some.injEq] at hplan
  rw [← hplan]
  exact ⟨rfl, rfl, rfl⟩

/-! ### Sample concrete inputs used by the witnesses -/

/-- A 1000×500 first image. -/
def sampleFirst : DecodedImage := { width := some 1000, height := some 500 }

/-- First sample item: no captions. -/
def sampleItem1 : ImageItem := { img := sampleFirst, caption := { zh := "", jp := "" } }

/-- Second sample item: a 400×300 image with both captions. -/
def sampleItem2 : ImageItem :=
  { img := { width := some 400, height := some 300 }
    caption := { zh := "甲", jp := "乙" } }

/-- Third sample item: only a primary caption. -/
def sampleItem3 : ImageItem :=
  { img := { width := some 400, height := some 300 }
    caption := { zh := "甲", jp := "" } }

/-- The sample input list. -/
def sampleItems : List ImageItem := [sampleItem1, sampleItem2]

/-- The plan the engine computes on the sample list. -/
def samplePlan : LayoutPlan :=
  { canvasWidth := CANVAS_WIDTH
    canvasHeight := totalHeight sampleItems.length sampleFirst
    bands := renderLoop sampleFirst 0 0 sampleItems }

/-- The second band of the sample plan: the loop reaches it at index 1 with
`currentY` equal to the rescaled height of the 1000×500 first image. -/
def sampleBand1 : BandRender :=
  (stepBand sampleFirst 1 (stepBand sampleFirst 0 0 sampleItem1).2 sampleItem2).1

/-! ### C1 -/

/-- C1: for every non-empty input list whose first image has positive pixel
size, the planner computes the caption band height as
`clamp(fullHeight0 * 0.15, 80, 120)` with
`fullHeight0 = heightPx * (800 / widthPx)`, and the canvas height as
`fullHeight0 + (count - 1) * captionBandHeight`; for a single-item list the
canvas height is exactly `fullHeight0`. -/
theorem caption_band_and_canvas_height (items : List ImageItem) (it : ImageItem)
    (rest : List ImageItem) (hitems : items = it :: rest)
    (w h : Nat) (hw : it.img.width = some w) (hw0 : 0 < w)
    (hh : it.img.height = some h) (hh0 : 0 < h)
    (plan : LayoutPlan) (hplan : makePlan items = some plan) :
    CAPTION_HEIGHT it.img =
      clamp ((h : ℚ) * (CANVAS_WIDTH / (w : ℚ)) * (15 / 100)) 80 120 ∧
    plan.canvasHeight =
      (h : ℚ) * (CANVAS_WIDTH / (w : ℚ)) +
        ((items.length : ℚ) - 1) * CAPTION_HEIGHT it.img ∧
    (rest = [] → plan.canvasHeight = (h : ℚ) * (CANVAS_WIDTH / (w : ℚ))) := by
  obtain ⟨-, hch, -⟩ := makePlan_eq items it rest hitems plan hplan
  have hfh := firstImageHeight_eq it.img w h hw hw0 hh hh0
  refine ⟨?_, ?_, ?_⟩
  · rw [CAPTION_HEIGHT, clamp, hfh]
  · rw [hch, totalHeight, hfh]
  · intro hrest
    subst hitems
    subst hrest
    rw [hch, totalHeight, hfh]
    simp

/-- Witness for C1 on the two-item sample list. -/
theorem caption_band_and_canvas_height_witness :
    CAPTION_HEIGHT sampleFirst =
      clamp ((500 : ℚ) * (CANVAS_WIDTH / (1000 : ℚ)) * (15 / 100)) 80 120 ∧
    samplePlan.canvasHeight =
      (500 : ℚ) * (CANVAS_WIDTH / (1000 : ℚ)) +
        ((sampleItems.length : ℚ) - 1) * CAPTION_HEIGHT sampleFirst ∧
    ([sampleItem2] = [] →
      samplePlan.canvasHeight = (500 : ℚ) * (CANVAS_WIDTH / (1000 : ℚ))) :=
  caption_band_and_canvas_height sampleItems sampleItem1 [sampleItem2] rfl
    1000 500 rfl (by norm_num) rfl (by norm_num) samplePlan rfl

/-! ### C4 -/

/-- C4: in every computed layout the bands tile the canvas: the first band
starts at 0 and has the first image's rescaled height, each next band
starts where the previous one ends, every later band has the caption band
height, and the canvas height is the sum of all band heights. -/
theorem bands_tile (items : List ImageItem) (it : ImageItem) (rest : List ImageItem)
    (hitems : items = it :: rest)
    (plan : LayoutPlan) (hplan : makePlan items = some plan) :
    (∀ b, plan.bands[0]? = some b →
      b.topY = 0 ∧ b.heightPx = firstImageHeight it.img) ∧
    (∀ i a b, plan.bands[i]? = some a → plan.bands[i + 1]? = some b →
      b.topY = a.topY + a.heightPx) ∧
    (∀ i b, plan.bands[i]? = some b → 0 < i →
      b.heightPx = CAPTION_HEIGHT it.img) ∧
    plan.canvasHeight = (plan.bands.map BandRender.heightPx).sum := by
  obtain ⟨-, hch, hbands⟩ := makePlan_eq items it rest hitems plan hplan
  refine ⟨?_, ?_, ?_, ?_⟩
  · intro b hb
    rw [hbands] at hb
    refine ⟨renderLoop_head_topY items it.img 0 0 b hb, ?_⟩
    have := renderLoop_height items it.img 0 0 0 b hb
    simpa using this
  · intro i a b ha hb
    rw [hbands] at ha hb
    exact renderLoop_tile items it.img 0 0 i a b ha hb
  · intro i b hb hi
    rw [hbands] at hb
    have := renderLoop_height items it.img 0 0 i b hb
    rwa [if_neg (by omega)] at this
  · rw [hbands, hch, hitems, renderLoop_sum it rest it.img, totalHeight, List.length_cons]
    push_cast
    ring

/-- Witness for C4 on the two-item sample list. -/
theorem bands_tile_witness :
    (∀ b, samplePlan.bands[0]? = some b →
      b.topY = 0 ∧ b.heightPx = firstImageHeight sampleItem1.img) ∧
    (∀ i a b, samplePlan.bands[i]? = some a → samplePlan.bands[i + 1]? = some b →
      b.topY = a.topY + a.heightPx) ∧
    (∀ i b, samplePlan.bands[i]? = some b → 0 < i →
      b.heightPx = CAPTION_HEIGHT sampleItem1.img) ∧
    samplePlan.canvasHeight = (samplePlan.bands.map BandRender.heightPx).sum :=
  bands_tile sampleItems sampleItem1 [sampleItem2] rfl samplePlan rfl

/-! ### C2 -/

/-- C2: every band after the first draws its image uniformly scaled by
`800 / widthPx`, bottom-aligned in its band
(`destY = topY + captionBandHeight - fullHeight_i`), and clipped to exactly
the band's absolute rectangle: left 0, top `topY`, width 800, height
`captionBandHeight`, absolutely positioned. -/
theorem band_clip_rect (items : List ImageItem) (it : ImageItem) (rest : List ImageItem)
    (hitems : items = it :: rest) (plan : LayoutPlan) (hplan : makePlan items = some plan)
    (i : Nat) (hi : 0 < i) (item : ImageItem) (hitem : items[i]? = some item)
    (w h : Nat) (hw : item.img.width = some w) (hw0 : 0 < w)
    (hh : item.img.height = some h) (hh0 : 0 < h)
    (b : BandRender) (hb : plan.bands[i]? = some b) :
    b.ops[0]? = some (DrawOp.image
      { left := 0
        top := b.topY + CAPTION_HEIGHT it.img - (h : ℚ) * (CANVAS_WIDTH / (w : ℚ))
        scaleX := CANVAS_WIDTH / (w : ℚ)
        scaleY := CANVAS_WIDTH / (w : ℚ)
        clipPath := some { left := 0, top := b.topY, width := CANVAS_WIDTH,
                           height := CAPTION_HEIGHT it.img, absolutePositioned := true } }) := by
  obtain ⟨-, -, hbands⟩ := makePlan_eq items it rest hitems plan hplan
  rw [hbands] at hb
  obtain ⟨item', hitem', hstep⟩ := renderLoop_get items it.img 0 0 i b hb
  rw [hitem] at hitem'
  obtain rfl : item = item' := Option.some.inj hitem'
  rw [Nat.zero_add] at hstep
  have hops : b.ops = (stepBand it.img i b.topY item).1.ops :=
    congrArg BandRender.ops hstep
  have hjw : jsOr item.img.width 1 = w := by rw [hw]; exact jsOr_of_pos w 1 hw0
  have hjh : jsOr item.img.height 600 = h := by rw [hh]; exact jsOr_of_pos h 600 hh0
  obtain ⟨j, rfl⟩ := Nat.exists_eq_succ_of_ne_zero (Nat.pos_iff_ne_zero.mp hi)
  rw [hops]
  simp [stepBand, hjw, hjh]

/-- Witness for C2: the second band of the two-item sample. -/
theorem band_clip_rect_witness :
    sampleBand1.ops[0]? = some (DrawOp.image
      { left := 0
        top := sampleBand1.topY + CAPTION_HEIGHT sampleItem1.img -
          (300 : ℚ) * (CANVAS_WIDTH / (400 : ℚ))
        scaleX := CANVAS_WIDTH / (400 : ℚ)
        scaleY := CANVAS_WIDTH / (400 : ℚ)
        clipPath := some { left := 0, top := sampleBand1.topY, width := CANVAS_WIDTH,
                           height := CAPTION_HEIGHT sampleItem1.img,
                           absolutePositioned := true } }) :=
  band_clip_rect sampleItems sampleItem1 [sampleItem2] rfl samplePlan rfl
    1 (by norm_num) sampleItem2 rfl 400 300 rfl (by norm_num) rfl (by norm_num)
    sampleBand1 rfl

/-! ### C5 -/

/-- C5: the first band is drawn in full at the origin with the
aspect-preserving scale `800 / widthPx` on both axes and no clip; on a
single-item input no operation anywhere carries a clip. -/
theorem band0_full_draw (items : List ImageItem) (it : ImageItem) (rest : List ImageItem)
    (hitems : items = it :: rest) (plan : LayoutPlan) (hplan : makePlan items = some plan)
    (w h : Nat) (hw : it.img.width = some w) (hw0 : 0 < w)
    (hh : it.img.height = some h) (hh0 : 0 < h)
    (b : BandRender) (hb : plan.bands[0]? = some b) :
    b.ops[0]? = some (DrawOp.image
      { left := 0, top := 0, scaleX := CANVAS_WIDTH / (w : ℚ),
        scaleY := CANVAS_WIDTH / (w : ℚ), clipPath := none }) ∧
    (rest = [] → ∀ b' ∈ plan.bands, ∀ op ∈ b'.ops, opClip op = none) := by
  obtain ⟨-, -, hbands⟩ := makePlan_eq items it rest hitems plan hplan
  constructor
  · rw [hbands, hitems] at hb
    simp only [renderLoop, List.getElem?_cons_zero, Option.some.injEq] at hb
    have hops : b.ops = (stepBand it.img 0 0 it).1.ops :=
      (congrArg BandRender.ops hb).symm
    have hq : (h : ℚ) ≠ 0 := Nat.cast_ne_zero.mpr hh0.ne'
    have hjw : jsOr it.img.width 1 = w := by rw [hw]; exact jsOr_of_pos w 1 hw0
    have hjh : jsOr it.img.height 1 = h := by rw [hh]; exact jsOr_of_pos h 1 hh0
    have hcancel : (h : ℚ) * (CANVAS_WIDTH / (w : ℚ)) / (h : ℚ) = CANVAS_WIDTH / (w : ℚ) :=
      mul_div_cancel_left₀ _ hq
    rw [hops]
    simp [stepBand, hjw, hjh, firstImageHeight_eq it.img w h hw hw0 hh hh0, hcancel]
  · intro hrest b' hb' op hop
    subst hitems
    subst hrest
    rw [hbands] at hb'
    simp only [renderLoop, List.mem_cons, List.not_mem_nil, or_false] at hb'
    subst hb'
    simp only [stepBand] at hop
    rcases List.mem_cons.mp hop with rfl | hc
    · rfl
    · obtain ⟨t, rfl⟩ := captionOps_text _ _ _ _ hc
      rfl

/-- The plan the engine computes on the single-item sample list. -/
def samplePlanSingle : LayoutPlan :=
  { canvasWidth := CANVAS_WIDTH
    canvasHeight := totalHeight 1 sampleFirst
    bands := renderLoop sampleFirst 0 0 [sampleItem1] }

/-- The first band of the single-item sample. -/
def sampleBand0 : BandRender := (stepBand sampleFirst 0 0 sampleItem1).1

/-- Witness for C5 on the single-item sample. -/
theorem band0_full_draw_witness :
    sampleBand0.ops[0]? = some (DrawOp.image
      { left := 0, top := 0, scaleX := CANVAS_WIDTH / (1000 : ℚ),
        scaleY := CANVAS_WIDTH / (1000 : ℚ), clipPath := none }) ∧
    (([] : List ImageItem) = [] →
      ∀ b' ∈ samplePlanSingle.bands, ∀ op ∈ b'.ops, opClip op = none) :=
  band0_full_draw [sampleItem1] sampleItem1 [] rfl samplePlanSingle rfl
    1000 500 rfl (by norm_num) rfl (by norm_num) sampleBand0 rfl

/-! ### C3 -/

/-- Every text operation a loop iteration emits is one of the three caption
texts, positioned relative to the iteration's band bottom `y + heightPx`. -/
lemma stepBand_text_mem (first : DecodedImage) (idx : Nat) (y : ℚ) (item : ImageItem)
    (t : TextDraw) (hm : DrawOp.text t ∈ (stepBand first idx y item).1.ops) :
    (item.caption.zh ≠ "" ∧
      (t = zhBackgroundText item.caption.zh
          (y + (stepBand first idx y item).1.heightPx -
            (if item.caption.jp ≠ "" then 65 else 55)) ∨
       t = zhMainText item.caption.zh
          (y + (stepBand first idx y item).1.heightPx -
            (if item.caption.jp ≠ "" then 65 else 55)))) ∨
    (item.caption.jp ≠ "" ∧
      t = jpCaptionText item.caption.jp
        (y + (stepBand first idx y item).1.heightPx - 25)) := by
  cases idx with
  | zero =>
    simp only [stepBand] at hm ⊢
    rcases List.mem_cons.mp hm with heq | hc
    · exact absurd heq (by simp)
    · have hmm := captionOps_mem item.caption _ _ t hc
      have e1 : y + firstImageHeight first - firstImageHeight first + firstImageHeight first
          = y + firstImageHeight first := by ring
      rwa [e1] at hmm
  | succ n =>
    simp only [stepBand] at hm ⊢
    rcases List.mem_cons.mp hm with heq | hc
    · exact absurd heq (by simp)
    · have hmm := captionOps_mem item.caption _ _ t hc
      have e1 : y + CAPTION_HEIGHT first - CAPTION_HEIGHT first + CAPTION_HEIGHT first
          = y + CAPTION_HEIGHT first := by ring
      rwa [e1] at hmm

/-- C3: every caption line is horizontally centered at `800 / 2`; the
primary caption sits at `bandBottom - 65` when the secondary caption is
non-empty and `bandBottom - 55` otherwise; the secondary caption sits at
`bandBottom - 25`; and for band 0 the band bottom is the first image's
rescaled full height. -/
theorem caption_text_geometry (items : List ImageItem) (it : ImageItem)
    (rest : List ImageItem) (hitems : items = it :: rest)
    (plan : LayoutPlan) (hplan : makePlan items = some plan)
    (i : Nat) (item : ImageItem) (hitem : items[i]? = some item)
    (b : BandRender) (hb : plan.bands[i]? = some b) :
    (∀ t, DrawOp.text t ∈ b.ops →
      t.left = CANVAS_WIDTH / 2 ∧
      (t.layer = TextLayer.jp → t.top = b.topY + b.heightPx - 25) ∧
      (t.layer ≠ TextLayer.jp →
        t.top = b.topY + b.heightPx - (if item.caption.jp ≠ "" then 65 else 55))) ∧
    (i = 0 → b.topY + b.heightPx = firstImageHeight it.img) := by
  obtain ⟨-, -, hbands⟩ := makePlan_eq items it rest hitems plan hplan
  rw [hbands] at hb
  obtain ⟨item', hitem', hstep⟩ := renderLoop_get items it.img 0 0 i b hb
  rw [hitem] at hitem'
  obtain rfl : item = item' := Option.some.inj hitem'
  rw [Nat.zero_add] at hstep
  have hH : b.heightPx = (stepBand it.img i b.topY item).1.heightPx :=
    congrArg BandRender.heightPx hstep
  constructor
  · intro t hmem
    rw [congrArg BandRender.ops hstep] at hmem
    have hmm := stepBand_text_mem it.img i b.topY item t hmem
    rw [← hH] at hmm
    rcases hmm with ⟨hzh, hz | hz⟩ | ⟨hjp, hj⟩
    · subst hz
      exact ⟨rfl, fun hl => absurd hl (by simp [zhBackgroundText]), fun _ => rfl⟩
    · subst hz
      exact ⟨rfl, fun hl => absurd hl (by simp [zhMainText]), fun _ => rfl⟩
    · subst hj
      exact ⟨rfl, fun _ => rfl, fun hl => absurd rfl hl⟩
  · intro hi0
    subst hi0
    have hty : b.topY = 0 := renderLoop_head_topY items it.img 0 0 b hb
    rw [hty, hH, stepBand_heightPx, if_pos rfl, zero_add]

/-- Witness for C3: the second band of the two-item sample, whose item has
both captions. -/
theorem caption_text_geometry_witness :
    (∀ t, DrawOp.text t ∈ sampleBand1.ops →
      t.left = CANVAS_WIDTH / 2 ∧
      (t.layer = TextLayer.jp →
        t.top = sampleBand1.topY + sampleBand1.heightPx - 25) ∧
      (t.layer ≠ TextLayer.jp →
        t.top = sampleBand1.topY + sampleBand1.heightPx -
          (if sampleItem2.caption.jp ≠ "" then 65 else 55))) ∧
    ((1 : Nat) = 0 →
      sampleBand1.topY + sampleBand1.heightPx = firstImageHeight sampleItem1.img) :=
  caption_text_geometry sampleItems sampleItem1 [sampleItem2] rfl samplePlan rfl
    1 sampleItem2 rfl sampleBand1 rfl

/-! ### C6 -/

/-- The operations of one loop iteration are one image draw followed by the
caption block's text draws. -/
lemma stepBand_ops_shape (first : DecodedImage) (idx : Nat) (y : ℚ) (item : ImageItem) :
    ∃ d st sh, (stepBand first idx y item).1.ops =
      DrawOp.image d :: captionOps item.caption st sh := by
  cases idx <;> exact ⟨_, _, _, rfl⟩

lemma countTextOps_captionOps (cap : Caption) (st sh : ℚ) :
    countTextOps (captionOps cap st sh) =
      (if cap.zh ≠ "" then 2 else 0) + (if cap.jp ≠ "" then 1 else 0) := by
  by_cases hzh : cap.zh = "" <;> by_cases hjp : cap.jp = "" <;>
    simp [captionOps, countTextOps, hzh, hjp]

lemma countLayer_captionOps_bg (cap : Caption) (st sh : ℚ) :
    countLayer (captionOps cap st sh) TextLayer.zhBackground =
      if cap.zh ≠ "" then 1 else 0 := by
  by_cases hzh : cap.zh = "" <;> by_cases hjp : cap.jp = "" <;>
    simp [captionOps, countLayer, hzh, hjp, zhBackgroundText, zhMainText, jpCaptionText]

lemma countLayer_captionOps_main (cap : Caption) (st sh : ℚ) :
    countLayer (captionOps cap st sh) TextLayer.zhMain =
      if cap.zh ≠ "" then 1 else 0 := by
  by_cases hzh : cap.zh = "" <;> by_cases hjp : cap.jp = "" <;>
    simp [captionOps, countLayer, hzh, hjp, zhBackgroundText, zhMainText, jpCaptionText]

lemma countLayer_captionOps_jp (cap : Caption) (st sh : ℚ) :
    countLayer (captionOps cap st sh) TextLayer.jp =
      if cap.jp ≠ "" then 1 else 0 := by
  by_cases hzh : cap.zh = "" <;> by_cases hjp : cap.jp = "" <;>
    simp [captionOps, countLayer, hzh, hjp, zhBackgroundText, zhMainText, jpCaptionText]

/-- C6: a band with both captions empty emits zero text draws; a band with
only the primary caption emits exactly one glow draw, one white fill draw,
two text draws in total and no secondary draw; and whenever the primary
caption is non-empty the glow copy appears strictly before the white fill
text in the draw order. -/
theorem caption_draw_call_counts (items : List ImageItem) (it : ImageItem)
    (rest : List ImageItem) (hitems : items = it :: rest)
    (plan : LayoutPlan) (hplan : makePlan items = some plan)
    (i : Nat) (item : ImageItem) (hitem : items[i]? = some item)
    (b : BandRender) (hb : plan.bands[i]? = some b) :
    (item.caption.zh = "" ∧ item.caption.jp = "" → countTextOps b.ops = 0) ∧
    (item.caption.zh ≠ "" ∧ item.caption.jp = "" →
      countLayer b.ops TextLayer.zhBackground = 1 ∧
      countLayer b.ops TextLayer.zhMain = 1 ∧
      countTextOps b.ops = 2 ∧
      countLayer b.ops TextLayer.jp = 0) ∧
    (item.caption.zh ≠ "" → ∃ j k : Nat, j < k ∧
      (∃ g, b.ops[j]? = some (DrawOp.text g) ∧ g.layer = TextLayer.zhBackground ∧
        g.fill = "#003153") ∧
      (∃ f, b.ops[k]? = some (DrawOp.text f) ∧ f.layer = TextLayer.zhMain ∧
        f.fill = "white")) := by
  obtain ⟨-, -, hbands⟩ := makePlan_eq items it rest hitems plan hplan
  rw [hbands] at hb
  obtain ⟨item', hitem', hstep⟩ := renderLoop_get items it.img 0 0 i b hb
  rw [hitem] at hitem'
  obtain rfl : item = item' := Option.some.inj hitem'
  rw [Nat.zero_add] at hstep
  obtain ⟨d, st, sh, hshape⟩ := stepBand_ops_shape it.img i b.topY item
  have hops : b.ops = DrawOp.image d :: captionOps item.caption st sh := by
    rw [congrArg BandRender.ops hstep, hshape]
  refine ⟨?_, ?_, ?_⟩
  · rintro ⟨hz, hj⟩
    rw [hops]
    simp [countTextOps, countTextOps_captionOps, hz, hj]
  · rintro ⟨hz, hj⟩
    rw [hops]
    simp [countTextOps, countLayer, countTextOps_captionOps, countLayer_captionOps_bg,
      countLayer_captionOps_main, countLayer_captionOps_jp, hz, hj]
  · intro hz
    refine ⟨1, 2, Nat.one_lt_two, ?_, ?_⟩
    · refine ⟨zhBackgroundText item.caption.zh
        (st + sh - (if item.caption.jp ≠ "" then 65 else 55)), ?_, rfl, rfl⟩
      rw [hops]
      simp [captionOps, hz]
    · refine ⟨zhMainText item.caption.zh
        (st + sh - (if item.caption.jp ≠ "" then 65 else 55)), ?_, rfl, rfl⟩
      rw [hops]
      simp [captionOps, hz]

/-- The sample list whose second item has only a primary caption. -/
def sampleItemsZh : List ImageItem := [sampleItem1, sampleItem3]

/-- The plan the engine computes on that list. -/
def samplePlanZh : LayoutPlan :=
  { canvasWidth := CANVAS_WIDTH
    canvasHeight := totalHeight sampleItemsZh.length sampleFirst
    bands := renderLoop sampleFirst 0 0 sampleItemsZh }

/-- Its second band. -/
def sampleBandZh : BandRender :=
  (stepBand sampleFirst 1 (stepBand sampleFirst 0 0 sampleItem1).2 sampleItem3).1

/-- Witness for C6: a band whose item carries only a primary caption. -/
theorem caption_draw_call_counts_witness :
    (sampleItem3.caption.zh = "" ∧ sampleItem3.caption.jp = "" →
      countTextOps sampleBandZh.ops = 0) ∧
    (sampleItem3.caption.zh ≠ "" ∧ sampleItem3.caption.jp = "" →
      countLayer sampleBandZh.ops TextLayer.zhBackground = 1 ∧
      countLayer sampleBandZh.ops TextLayer.zhMain = 1 ∧
      countTextOps sampleBandZh.ops = 2 ∧
      countLayer sampleBandZh.ops TextLayer.jp = 0) ∧
    (sampleItem3.caption.zh ≠ "" → ∃ j k : Nat, j < k ∧
      (∃ g, sampleBandZh.ops[j]? = some (DrawOp.text g) ∧
        g.layer = TextLayer.zhBackground ∧ g.fill = "#003153") ∧
      (∃ f, sampleBandZh.ops[k]? = some (DrawOp.text f) ∧
        f.layer = TextLayer.zhMain ∧ f.fill = "white")) :=
  caption_draw_call_counts sampleItemsZh sampleItem1 [sampleItem3] rfl samplePlanZh rfl
    1 sampleItem3 rfl sampleBandZh rfl

/-! ### C7 -/

/-- Counterexample to C7: on an empty item list `generatePreview` surfaces
no error at all — in particular not an empty-input error — and creates no
surface; the claim that it fails with `EmptyInputError` is false. -/
theorem empty_input_no_error_counterexample :
    (generatePreview [] true none).reportedError = none ∧
    (generatePreview [] true none).reportedError ≠ some SurfacedError.emptyInput ∧
    (generatePreview [] true none).surfaceCreated = false := by
  decide

/-- C7 (amended): invoking the engine with an empty item list returns
early with no surface created and no output, but no error of any kind is
surfaced; the pure planner likewise yields no plan. -/
theorem empty_input_early_return (c : Bool) (f : Option FailurePoint) :
    generatePreview [] c f = emptyGPResult ∧ makePlan [] = none :=
  ⟨rfl, rfl⟩

/-! ### C8 -/

/-- A concrete error message for the injected failures. -/
def sampleErrorMsg : String := "clone rejected"

/-- A concrete draw-stage failure. -/
def sampleDrawFailure : FailurePoint := FailurePoint.drawFailure sampleErrorMsg

/-- Counterexample to C8: on a draw failure the code reports no
`RenderError` to the caller (the error only reaches `console.error`) and
the already-constructed canvas is not disposed in the failure path. -/
theorem render_failure_unreported_counterexample :
    (generatePreview [sampleItem1] true (some sampleDrawFailure)).reportedError = none ∧
    (generatePreview [sampleItem1] true (some sampleDrawFailure)).surfaceCreated = true ∧
    (generatePreview [sampleItem1] true
      (some sampleDrawFailure)).surfaceDisposedInFailurePath = false ∧
    (generatePreview [sampleItem1] true (some sampleDrawFailure)).previewUrl = none := by
  decide

/-- C8 (amended): any load or draw failure aborts the render with no
partial output surfaced to the caller, but the failure is only logged to
the console — no `RenderError` is reported to the caller — and a canvas
constructed before the failure is not released in the failure path. -/
theorem render_failure_aborts (items : List ImageItem) (f : FailurePoint)
    (hne : items ≠ []) :
    (generatePreview items true (some f)).previewUrl = none ∧
    (generatePreview items true (some f)).reportedError = none ∧
    (∃ msg, (generatePreview items true (some f)).consoleError = some msg) ∧
    (generatePreview items true (some f)).surfaceDisposedInFailurePath = false := by
  have hlen : ¬items.length = 0 := fun h => hne (List.length_eq_zero.mp h)
  cases f with
  | loadFailure msg =>
    have hgp : generatePreview items true (some (FailurePoint.loadFailure msg)) =
        { emptyGPResult with consoleError := some msg } := by
      unfold generatePreview
      rw [if_neg hlen]
      rfl
    rw [hgp]
    exact ⟨rfl, rfl, ⟨msg, rfl⟩, rfl⟩
  | drawFailure msg =>
    have hgp : generatePreview items true (some (FailurePoint.drawFailure msg)) =
        { reportedError := none, consoleError := some msg, previewUrl := none,
          surfaceCreated := true, surfaceDisposedInFailurePath := false,
          finalSteps := [] } := by
      unfold generatePreview
      rw [if_neg hlen]
      rfl
    rw [hgp]
    exact ⟨rfl, rfl, ⟨msg, rfl⟩, rfl⟩

/-- Witness for C8 (amended) at a concrete draw failure. -/
theorem render_failure_aborts_witness :
    (generatePreview [sampleItem1] true (some sampleDrawFailure)).previewUrl = none ∧
    (generatePreview [sampleItem1] true (some sampleDrawFailure)).reportedError = none ∧
    (∃ msg, (generatePreview [sampleItem1] true
      (some sampleDrawFailure)).consoleError = some msg) ∧
    (generatePreview [sampleItem1] true
      (some sampleDrawFailure)).surfaceDisposedInFailurePath = false :=
  render_failure_aborts [sampleItem1] sampleDrawFailure (List.cons_ne_nil _ _)

/-! ### C9 -/

/-- Counterexample to C9: the post-loop step sequence is not the
synchronous `renderAll` directly followed by the readback — a 100 ms timer
sits between them, so the readback is deferred. -/
theorem deferred_readback_counterexample :
    FinalStep.timeout 100 ∈ (generatePreview [sampleItem1] true none).finalSteps ∧
    (generatePreview [sampleItem1] true none).finalSteps ≠
      [FinalStep.renderAll, FinalStep.toDataURL] := by
  decide

/-- C9 (amended): on every successful render the post-loop steps are
exactly `renderAll`, then a 100 ms timeout, then the `toDataURL` readback;
no drawing step occurs between `renderAll` and the readback. -/
theorem finalize_deferred_readback (items : List ImageItem) (hne : items ≠ []) :
    (generatePreview items true none).finalSteps =
      [FinalStep.renderAll, FinalStep.timeout 100, FinalStep.toDataURL] ∧
    FinalStep.draw ∉ (generatePreview items true none).finalSteps := by
  have hlen : ¬items.length = 0 := fun h => hne (List.length_eq_zero.mp h)
  have hgp : (generatePreview items true none).finalSteps =
      [FinalStep.renderAll, FinalStep.timeout 100, FinalStep.toDataURL] := by
    unfold generatePreview
    rw [if_neg hlen]
    rfl
  refine ⟨hgp, ?_⟩
  rw [hgp]
  decide

/-- Witness for C9 (amended) on the single-item sample. -/
theorem finalize_deferred_readback_witness :
    (generatePreview [sampleItem1] true none).finalSteps =
      [FinalStep.renderAll, FinalStep.timeout 100, FinalStep.toDataURL] ∧
    FinalStep.draw ∉ (generatePreview [sampleItem1] true none).finalSteps :=
  finalize_deferred_readback [sampleItem1] (List.cons_ne_nil _ _)

/-! ### C10 -/

lemma jsOr_pos (o : Option Nat) (d : Nat) (hd : 0 < d) : 0 < jsOr o d := by
  match o with
  | none => exact hd
  | some 0 => exact hd
  | some (n + 1) => exact Nat.succ_pos n

/-- C10: the layout computation is total — a zero or missing width is
substituted by 1 before the scale `800 / width` is computed, a zero or
missing first-image height is substituted by 600 before `fullHeight0` is
computed, the substituted values are strictly positive so no division by
zero occurs, and every computed quantity is a well-defined (finite)
rational. -/
theorem layout_totality (o : Option Nat) (first : DecodedImage) :
    jsOr none 1 = 1 ∧ jsOr (some 0) 1 = 1 ∧
    jsOr none 600 = 600 ∧ jsOr (some 0) 600 = 600 ∧
    0 < jsOr o 1 ∧ 0 < jsOr o 600 ∧
    ((jsOr o 1 : Nat) : ℚ) ≠ 0 ∧
    firstImageScale first = CANVAS_WIDTH / ((jsOr first.width 1 : Nat) : ℚ) ∧
    firstImageHeight first = ((jsOr first.height 600 : Nat) : ℚ) * firstImageScale first := by
  refine ⟨rfl, rfl, rfl, rfl, jsOr_pos o 1 one_pos, jsOr_pos o 600 (by norm_num),
    Nat.cast_ne_zero.mpr (jsOr_pos o 1 one_pos).ne', rfl, rfl⟩

end ImageStitching
